import Mathlib

/-!
Shallow embedding of `src/camunda/client/async_external_task_client.py`
(class `AsyncExternalTaskClient`) and verification of its specification.

Python values appearing in request bodies are modelled by the inductive
type `Json`; Python dicts are ordered association lists (insertion order),
with `dictUpdate` modelling `dict.update` (replace existing key in place,
append new keys) and `dictGet` modelling lookup.

Collaborators imported by the client but not part of this file's source
(`str_to_list`, `raise_exception_if_not_ok`, `Variables.format`,
`AuthBasic`, `AuthBearer`, and `httpx`'s transport behaviour) are modelled
from the specification; each such definition carries a doc comment saying
so.
-/

namespace Camunda

/-- A Python/JSON value as it appears in request bodies. Dicts keep
insertion order, as Python dicts do. -/
inductive Json where
  | null : Json
  | bool (b : Bool) : Json
  | num (n : Int) : Json
  | str (s : String) : Json
  | arr (xs : List Json) : Json
  | obj (fields : List (String × Json)) : Json

/-- Python truthiness of a value: `None`, `False`, `0`, `""`, `[]`, `{}`
are falsy, everything else truthy. -/
def Json.isTruthy : Json → Bool
  | .null => false
  | .bool b => b
  | .num n => n != 0
  | .str s => s != ""
  | .arr xs => !xs.isEmpty
  | .obj fs => !fs.isEmpty

/-- Python `isinstance(v, dict)`. -/
def Json.isDict : Json → Bool
  | .obj _ => true
  | _ => false

/-- Lookup in an assoc-list dict (first matching key). -/
def dictGet : List (String × Json) → String → Option Json
  | [], _ => none
  | (k', v) :: rest, k => if k' = k then some v else dictGet rest k

/-- Lookup of a key in the fields of an object value. -/
def Json.get : Json → String → Option Json
  | .obj fs, k => dictGet fs k
  | _, _ => none

/-- Set one key in an assoc-list dict: replace in place if present, else
append (Python dict assignment semantics). -/
def dictSet (d : List (String × Json)) (k : String) (v : Json) :
    List (String × Json) :=
  match d with
  | [] => [(k, v)]
  | (k', v') :: rest =>
      if k' = k then (k', v) :: rest else (k', v') :: dictSet rest k v

/-- Python `d.update(e)`: set every key of `e` in `d`, in order. -/
def dictUpdate (d e : List (String × Json)) : List (String × Json) :=
  e.foldl (fun acc p => dictSet acc p.1 p.2) d

/-- Python `str(v)` on the values this client passes as `workerId`.
String-ness of the result is all the claims use; the textual rendering of
containers is abbreviated. -/
def pyStr : Json → String
  | .str s => s
  | .num n => toString n
  | .bool true => "True"
  | .bool false => "False"
  | .null => "None"
  | .arr _ => "[...]"
  | .obj _ => "{...}"

/-- The client configuration after `default_config.copy()` has been merged
with the user-supplied dict (`__init__`, lines 32-39). Field names follow
the dict keys of `default_config`; `auth_basic`/`auth_bearer` are the
optional credential entries a user config may add (`none` = key absent). -/
structure Config where
  maxConcurrentTasks : Nat := 10
  lockDuration : Nat := 300000
  asyncResponseTimeout : Nat := 30000
  retries : Nat := 3
  retryTimeout : Nat := 300000
  httpTimeoutMillis : Nat := 30000
  timeoutDeltaMillis : Nat := 5000
  includeExtensionProperties : Bool := true
  deserializeValues : Bool := true
  usePriority : Bool := false
  sorting : Json := .null
  auth_basic : Option Json := none
  auth_bearer : Option Json := none

/-- `self.http_timeout_seconds = self.config.get('httpTimeoutMillis') / 1000`
(line 39); Python float division modelled exactly over ℚ. -/
def http_timeout_seconds (cfg : Config) : ℚ :=
  (cfg.httpTimeoutMillis : ℚ) / 1000

/-- `__get_fetch_and_lock_http_timeout_seconds` (lines 69-71):
`(self.config["timeoutDeltaMillis"] + self.config["asyncResponseTimeout"]) / 1000`. -/
def get_fetch_and_lock_http_timeout_seconds (cfg : Config) : ℚ :=
  ((cfg.timeoutDeltaMillis : ℚ) + (cfg.asyncResponseTimeout : ℚ)) / 1000

/-- The `topic_names` argument of `fetch_and_lock`: a single topic
identifier or a sequence of them. -/
inductive TopicNames where
  | single (s : String) : TopicNames
  | many (xs : List String) : TopicNames

/-- Modelled from the spec: `str_to_list` (`camunda.utils.utils`, not under
src/) — "accepts a single identifier as well — normalize to a one-element
sequence"; a sequence passes through unchanged. -/
def str_to_list : TopicNames → List String
  | .single s => [s]
  | .many xs => xs

/-- One subscription dict as built in the body of the loop of `_get_topics`
(lines 76-84), field for field in source order. -/
def topicSubscription (cfg : Config) (topic : String)
    (process_variables vars : Json) : Json :=
  .obj [
    ("topicName", .str topic),
    ("lockDuration", .num cfg.lockDuration),
    ("processVariables",
      if process_variables.isTruthy then process_variables else .obj []),
    ("includeExtensionProperties",
      .bool (cfg.includeExtensionProperties || false)),
    ("deserializeValues", .bool cfg.deserializeValues),
    ("variables", vars)
  ]

/-- `_get_topics` (lines 73-85): one subscription per element of
`str_to_list(topic_names)`, in order. -/
def _get_topics (cfg : Config) (topic_names : TopicNames)
    (process_variables vars : Json) : List Json :=
  (str_to_list topic_names).map
    (fun topic => topicSubscription cfg topic process_variables vars)

/-- The request body built by `fetch_and_lock` (lines 47-54). -/
def fetchAndLockBody (cfg : Config) (worker_id : Json)
    (topic_names : TopicNames) (process_variables vars : Json) : Json :=
  .obj [
    ("workerId", .str (pyStr worker_id)),
    ("maxTasks", .num 1),
    ("topics", .arr (_get_topics cfg topic_names process_variables vars)),
    ("asyncResponseTimeout", .num cfg.asyncResponseTimeout),
    ("usePriority", .bool cfg.usePriority),
    ("sorting", cfg.sorting)
  ]

/-- Modelled from the spec: `Variables.format`
(`camunda.variables.variables`, not under src/) — the external
variable-formatting collaborator "must accept None/absent maps and produce
a valid empty representation, never fail on absence"; a present mapping
yields its wire form, modelled here as pass-through. -/
def VariablesFormat : Option Json → Json
  | none => .obj []
  | some v => v

/-- The request body built by `complete` (lines 90-94). -/
def completeBody (worker_id : Json) (global_variables local_variables : Option Json) : Json :=
  .obj [
    ("workerId", worker_id),
    ("variables", VariablesFormat global_variables),
    ("localVariables", VariablesFormat local_variables)
  ]

/-- The request body built by `failure` (lines 107-114): the base dict,
then `errorDetails` appended only when `error_details` is truthy. -/
def failureBody (worker_id error_message : Json) (error_details : Json)
    (retries retry_timeout : Json) : Json :=
  let base := [
    ("workerId", worker_id),
    ("errorMessage", error_message),
    ("retries", retries),
    ("retryTimeout", retry_timeout)
  ]
  .obj (if error_details.isTruthy then base ++ [("errorDetails", error_details)] else base)

/-- The request body built by `bpmn_failure` (lines 127-132). -/
def bpmnFailureBody (worker_id error_code error_message : Json)
    (vars : Option Json) : Json :=
  .obj [
    ("workerId", worker_id),
    ("errorCode", error_code),
    ("errorMessage", error_message),
    ("variables", VariablesFormat vars)
  ]

/-- Modelled from the spec: the credential-provider capability
(`AuthBasic` / `AuthBearer`, `camunda.utils`, not under src/) exposes
`headerValue() → string`; a token function maps the credential config
entry to the Authorization header value it produces. -/
def TokenFun : Type := Json → String

/-- The `auth_basic` property (lines 145-150): returns `{}` when the
`auth_basic` config entry is absent, falsy, or not a dict; otherwise a
one-entry dict with the basic strategy's header value. -/
def auth_basic (cfg : Config) (basicTok : TokenFun) : List (String × String) :=
  match cfg.auth_basic with
  | none => []
  | some v =>
      if v.isTruthy && v.isDict then [("Authorization", basicTok v)] else []

/-- The `auth_bearer` property (lines 152-157): returns `{}` when the
`auth_bearer` config entry is absent, falsy, or not a dict; otherwise a
one-entry dict with the bearer strategy's header value. -/
def auth_bearer (cfg : Config) (bearerTok : TokenFun) : List (String × String) :=
  match cfg.auth_bearer with
  | none => []
  | some v =>
      if v.isTruthy && v.isDict then [("Authorization", bearerTok v)] else []

/-- Set one key in a string-valued assoc-list dict (Python dict
assignment: replace in place if present, else append). -/
def dictSetS (d : List (String × String)) (k v : String) :
    List (String × String) :=
  match d with
  | [] => [(k, v)]
  | (k', v') :: rest =>
      if k' = k then (k', v) :: rest else (k', v') :: dictSetS rest k v

/-- Python `d.update(e)` on string-valued dicts. -/
def dictUpdateS (d e : List (String × String)) : List (String × String) :=
  e.foldl (fun acc p => dictSetS acc p.1 p.2) d

/-- Lookup in a string-valued assoc-list dict. -/
def dictGetS : List (String × String) → String → Option String
  | [], _ => none
  | (k', v) :: rest, k => if k' = k then some v else dictGetS rest k

/-- `_get_headers` (lines 159-167): start from the Content-Type header,
update with `auth_basic` if truthy (non-empty), then with `auth_bearer`
if truthy — so bearer is written after basic. -/
def _get_headers (cfg : Config) (basicTok bearerTok : TokenFun) :
    List (String × String) :=
  let headers := [("Content-Type", "application/json")]
  let headers :=
    if (auth_basic cfg basicTok).isEmpty then headers
    else dictUpdateS headers (auth_basic cfg basicTok)
  let headers :=
    if (auth_bearer cfg bearerTok).isEmpty then headers
    else dictUpdateS headers (auth_bearer cfg bearerTok)
  headers

/-- The outcome of one `httpx` POST: either a response with a status code
and decoded JSON body arrived, or the client-side deadline expired with no
response received. -/
inductive HttpOutcome where
  | response (status : Nat) (body : Json) : HttpOutcome
  | timeout : HttpOutcome

/-- The error taxonomy of the spec: a transport-level failure (deadline
expiry, no response) versus an orchestrator rejection (non-2xx response,
carrying the original status and body). -/
inductive ClientError where
  | transportError : ClientError
  | orchestratorError (status : Nat) (body : Json) : ClientError

/-- Modelled from `httpx` transport semantics per the spec: a client-side
timeout raises a `TransportError`-kind exception; otherwise the response
is handed to the caller. -/
def transportResult : HttpOutcome → Except ClientError (Nat × Json)
  | .timeout => .error .transportError
  | .response status body => .ok (status, body)

/-- Modelled from the spec: `raise_exception_if_not_ok`
(`camunda.utils.response_utils`, not under src/) — "a non-2xx response
from any of the four endpoints raises an OrchestratorError carrying the
original status code" (and body). -/
def raise_exception_if_not_ok (status : Nat) (body : Json) :
    Except ClientError Unit :=
  if 200 ≤ status ∧ status ≤ 299 then .ok ()
  else .error (.orchestratorError status body)

/-- Modelled from the spec: `httpx.Response.raise_for_status` (used by
`bpmn_failure`, line 139) raises for any non-2xx response, carrying the
status. -/
def raise_for_status (status : Nat) (body : Json) :
    Except ClientError Unit :=
  if 200 ≤ status ∧ status ≤ 299 then .ok ()
  else .error (.orchestratorError status body)

/-- `HTTPStatus.NO_CONTENT`. -/
def NO_CONTENT : Nat := 204

/-- The outcome handling of `fetch_and_lock` (lines 60-67): await the
POST, `raise_exception_if_not_ok(response)`, then return `response.json()`
unchanged. -/
def fetchAndLockResult (outcome : HttpOutcome) : Except ClientError Json :=
  match transportResult outcome with
  | .error e => .error e
  | .ok (status, body) =>
      match raise_exception_if_not_ok status body with
      | .error e => .error e
      | .ok () => .ok body

/-- The outcome handling of `complete` (lines 96-99): await the POST,
`raise_exception_if_not_ok(response)`, then return
`response.status_code == HTTPStatus.NO_CONTENT`. -/
def completeResult (outcome : HttpOutcome) : Except ClientError Bool :=
  match transportResult outcome with
  | .error e => .error e
  | .ok (status, body) =>
      match raise_exception_if_not_ok status body with
      | .error e => .error e
      | .ok () => .ok (status == NO_CONTENT)

/-- The outcome handling of `failure` (lines 116-119), identical to
`complete`'s. -/
def failureResult (outcome : HttpOutcome) : Except ClientError Bool :=
  match transportResult outcome with
  | .error e => .error e
  | .ok (status, body) =>
      match raise_exception_if_not_ok status body with
      | .error e => .error e
      | .ok () => .ok (status == NO_CONTENT)

/-- The outcome handling of `bpmn_failure` (lines 137-140): await the
POST, `response.raise_for_status()`, then return
`response.status_code == HTTPStatus.NO_CONTENT`. -/
def bpmnFailureResult (outcome : HttpOutcome) : Except ClientError Bool :=
  match transportResult outcome with
  | .error e => .error e
  | .ok (status, body) =>
      match raise_for_status status body with
      | .error e => .error e
      | .ok () => .ok (status == NO_CONTENT)

/-- The keys of an object value, in insertion order. -/
def Json.keys : Json → List String
  | .obj fs => fs.map Prod.fst
  | _ => []

/-! ## Theorems -/

/-- C1, counterexample: with `timeoutDeltaMillis = 0` (a legal
configuration), the fetch-and-lock HTTP deadline equals
`asyncResponseTimeout` exactly and is NOT strictly greater than it. -/
theorem fetch_deadline_not_strict_at_zero_delta :
    ¬ ((({ timeoutDeltaMillis := 0 } : Config).asyncResponseTimeout : ℚ) <
        get_fetch_and_lock_http_timeout_seconds { timeoutDeltaMillis := 0 } * 1000) := by
  norm_num [get_fetch_and_lock_http_timeout_seconds]

/-- C1 (amended): for every configuration with `asyncResponseTimeout = T`
and `timeoutDeltaMillis = D`, the HTTP deadline `fetch_and_lock` passes to
the transport, computed as `(D + T)/1000` seconds, equals exactly `T + D`
milliseconds; it is always at least `T`, and strictly greater than `T`
whenever `D > 0` (in particular under the default `D = 5000`). -/
theorem fetch_deadline_eq_sum (cfg : Config) :
    get_fetch_and_lock_http_timeout_seconds cfg * 1000 =
      (cfg.asyncResponseTimeout : ℚ) + (cfg.timeoutDeltaMillis : ℚ)
    ∧ (cfg.asyncResponseTimeout : ℚ) ≤
        get_fetch_and_lock_http_timeout_seconds cfg * 1000
    ∧ (0 < cfg.timeoutDeltaMillis →
        (cfg.asyncResponseTimeout : ℚ) <
          get_fetch_and_lock_http_timeout_seconds cfg * 1000) := by
  have hmain : get_fetch_and_lock_http_timeout_seconds cfg * 1000 =
      (cfg.asyncResponseTimeout : ℚ) + (cfg.timeoutDeltaMillis : ℚ) := by
    rw [get_fetch_and_lock_http_timeout_seconds,
      div_mul_cancel₀ _ (by norm_num : (1000 : ℚ) ≠ 0)]
    ring
  refine ⟨hmain, ?_, ?_⟩
  · rw [hmain]
    have : (0 : ℚ) ≤ (cfg.timeoutDeltaMillis : ℚ) := by positivity
    linarith
  · intro h
    rw [hmain]
    have : (0 : ℚ) < (cfg.timeoutDeltaMillis : ℚ) := by exact_mod_cast h
    linarith

/-- Witness for C1's amended theorem at the default configuration
(`T = 30000`, `D = 5000`). -/
theorem fetch_deadline_eq_sum_witness :
    0 < ({} : Config).timeoutDeltaMillis ∧
    (({} : Config).asyncResponseTimeout : ℚ) <
      get_fetch_and_lock_http_timeout_seconds {} * 1000 :=
  ⟨by decide, (fetch_deadline_eq_sum {}).2.2 (by decide)⟩

/-- C6: `failure` with `error_details` equal to `None` or `""` builds a
request body with no `errorDetails` key at all; with a non-empty
`error_details` string the body carries it under the `errorDetails` key. -/
theorem failure_omits_empty_error_details
    (w m retries rt : Json) :
    "errorDetails" ∉ (failureBody w m .null retries rt).keys
    ∧ "errorDetails" ∉ (failureBody w m (.str "") retries rt).keys
    ∧ (∀ s : String, s ≠ "" →
        (failureBody w m (.str s) retries rt).get "errorDetails" =
          some (.str s)) := by
  refine ⟨?_, ?_, ?_⟩
  · simp [failureBody, Json.keys, Json.isTruthy]
  · simp [failureBody, Json.keys, Json.isTruthy]
  · intro s hs
    simp [failureBody, Json.isTruthy, hs, Json.get, dictGet, List.find?]

/-- Witness for C6 at concrete arguments. -/
theorem failure_omits_empty_error_details_witness :
    "errorDetails" ∉
      (failureBody (.str "w1") (.str "boom") .null (.num 2) (.num 1000)).keys
    ∧ ("details" : String) ≠ ""
    ∧ (failureBody (.str "w1") (.str "boom") (.str "details") (.num 2)
        (.num 1000)).get "errorDetails" = some (.str "details") :=
  ⟨(failure_omits_empty_error_details (.str "w1") (.str "boom") (.num 2)
      (.num 1000)).1,
   by decide,
   (failure_omits_empty_error_details (.str "w1") (.str "boom") (.num 2)
      (.num 1000)).2.2 "details" (by decide)⟩

/-- C7: `complete` with `local_variables = None` succeeds in building the
request body: the variable formatter applied to `None` yields the empty
mapping, and that value sits under the `localVariables` key. -/
theorem complete_accepts_none_local_variables
    (w : Json) (g : Option Json) :
    VariablesFormat none = .obj []
    ∧ (completeBody w g none).get "localVariables" =
        some (VariablesFormat none)
    ∧ (completeBody w g none).get "localVariables" = some (.obj []) := by
  refine ⟨rfl, ?_, ?_⟩ <;>
    simp [completeBody, VariablesFormat, Json.get, dictGet, List.find?]

/-- C8: `fetch_and_lock` sends `workerId = str(worker_id)` while
`complete`, `failure` and `bpmn_failure` send `worker_id` unmodified; so
for a non-string `worker_id` the value sent by `fetch_and_lock` differs
from the one the reporting operations send. -/
theorem worker_id_string_coercion_mismatch
    (cfg : Config) (w : Json) (tn : TopicNames) (pv vars m ec ed r rt : Json)
    (g l bv : Option Json) :
    (fetchAndLockBody cfg w tn pv vars).get "workerId" =
      some (.str (pyStr w))
    ∧ (completeBody w g l).get "workerId" = some w
    ∧ (failureBody w m ed r rt).get "workerId" = some w
    ∧ (bpmnFailureBody w ec m bv).get "workerId" = some w
    ∧ ((∀ s : String, w ≠ .str s) → Json.str (pyStr w) ≠ w) := by
  refine ⟨?_, ?_, ?_, ?_, ?_⟩
  · simp [fetchAndLockBody, Json.get, dictGet, List.find?]
  · simp [completeBody, Json.get, dictGet, List.find?]
  · cases hd : ed.isTruthy <;>
      simp [failureBody, hd, Json.get, dictGet, List.find?]
  · simp [bpmnFailureBody, Json.get, dictGet, List.find?]
  · intro hns h
    exact hns (pyStr w) h.symm

/-- Witness for C8 at the non-string worker id `5`. -/
theorem worker_id_string_coercion_mismatch_witness :
    (∀ s : String, Json.num 5 ≠ .str s) ∧ Json.str (pyStr (.num 5)) ≠ .num 5 :=
  ⟨fun _ h => Json.noConfusion h,
   (worker_id_string_coercion_mismatch {} (.num 5) (.single "t") .null .null
      (.str "m") (.str "c") .null (.num 1) (.num 2) none none none).2.2.2.2
    (fun _ h => Json.noConfusion h)⟩

/-- C2: for each of the four endpoint operations, a non-2xx response
yields an orchestrator error carrying the original status code (and body),
a client-side timeout yields the transport error, and the two error kinds
are distinct, so a caller can discriminate them. -/
theorem non2xx_and_timeout_error_taxonomy
    (status : Nat) (body : Json) (h : ¬ (200 ≤ status ∧ status ≤ 299)) :
    (fetchAndLockResult (.response status body) =
        .error (.orchestratorError status body)
     ∧ completeResult (.response status body) =
        .error (.orchestratorError status body)
     ∧ failureResult (.response status body) =
        .error (.orchestratorError status body)
     ∧ bpmnFailureResult (.response status body) =
        .error (.orchestratorError status body))
    ∧ (fetchAndLockResult .timeout = .error .transportError
     ∧ completeResult .timeout = .error .transportError
     ∧ failureResult .timeout = .error .transportError
     ∧ bpmnFailureResult .timeout = .error .transportError)
    ∧ ClientError.transportError ≠ ClientError.orchestratorError status body := by
  refine ⟨⟨?_, ?_, ?_, ?_⟩, ⟨rfl, rfl, rfl, rfl⟩,
    fun hc => ClientError.noConfusion hc⟩ <;>
    simp [fetchAndLockResult, completeResult, failureResult,
      bpmnFailureResult, transportResult, raise_exception_if_not_ok,
      raise_for_status, h]

/-- Witness for C2 at the non-2xx status 404. -/
theorem non2xx_and_timeout_error_taxonomy_witness :
    ¬ ((200 : Nat) ≤ 404 ∧ (404 : Nat) ≤ 299)
    ∧ completeResult (.response 404 .null) =
        .error (.orchestratorError 404 .null) :=
  ⟨by decide, (non2xx_and_timeout_error_taxonomy 404 .null (by decide)).1.2.1⟩

/-- C3: for a 2xx response, `complete`, `failure` and `bpmn_failure`
return `true` exactly when the status is 204 and `false` for every other
2xx status; for a non-2xx response they raise instead of returning a
boolean. -/
theorem report_ops_true_iff_204 (status : Nat) (body : Json) :
    (status = 204 →
      completeResult (.response status body) = .ok true
      ∧ failureResult (.response status body) = .ok true
      ∧ bpmnFailureResult (.response status body) = .ok true)
    ∧ (200 ≤ status → status ≤ 299 → status ≠ 204 →
      completeResult (.response status body) = .ok false
      ∧ failureResult (.response status body) = .ok false
      ∧ bpmnFailureResult (.response status body) = .ok false)
    ∧ (¬ (200 ≤ status ∧ status ≤ 299) →
      completeResult (.response status body) =
        .error (.orchestratorError status body)
      ∧ failureResult (.response status body) =
        .error (.orchestratorError status body)
      ∧ bpmnFailureResult (.response status body) =
        .error (.orchestratorError status body)) := by
  refine ⟨?_, ?_, ?_⟩
  · rintro rfl
    refine ⟨?_, ?_, ?_⟩ <;>
      simp [completeResult, failureResult, bpmnFailureResult,
        transportResult, raise_exception_if_not_ok, raise_for_status,
        NO_CONTENT]
  · intro h1 h2 h3
    refine ⟨?_, ?_, ?_⟩ <;>
      simp [completeResult, failureResult, bpmnFailureResult,
        transportResult, raise_exception_if_not_ok, raise_for_status,
        NO_CONTENT, h1, h2, h3]
  · intro h
    refine ⟨?_, ?_, ?_⟩ <;>
      simp [completeResult, failureResult, bpmnFailureResult,
        transportResult, raise_exception_if_not_ok, raise_for_status, h]

/-- Witness for C3 at statuses 204, 200 and 404. -/
theorem report_ops_true_iff_204_witness :
    completeResult (.response 204 .null) = .ok true
    ∧ failureResult (.response 200 .null) = .ok false
    ∧ bpmnFailureResult (.response 404 .null) =
        .error (.orchestratorError 404 .null) :=
  ⟨((report_ops_true_iff_204 204 .null).1 rfl).1,
   ((report_ops_true_iff_204 200 .null).2.1 (by decide) (by decide)
      (by decide)).2.1,
   ((report_ops_true_iff_204 404 .null).2.2 (by decide)).2.2⟩

/-- C4: `fetch_and_lock` builds exactly one subscription per topic name,
in the order given; for topic names `["a", "b"]` and shared
`processVariables = {"x": {}}` it builds exactly two subscriptions with
identical `processVariables`, differing only in their `topicName`. -/
theorem fetch_builds_one_subscription_per_topic
    (cfg : Config) (names : List String) (pv vars : Json) :
    ((_get_topics cfg (.many names) pv vars).map
        (fun s => s.get "topicName") = names.map (fun t => some (.str t)))
    ∧ (∃ s0 s1,
        _get_topics cfg (.many ["a", "b"]) (.obj [("x", .obj [])]) vars =
          [s0, s1]
        ∧ s0.get "topicName" = some (.str "a")
        ∧ s1.get "topicName" = some (.str "b")
        ∧ s0.get "processVariables" = some (.obj [("x", .obj [])])
        ∧ s1.get "processVariables" = some (.obj [("x", .obj [])])
        ∧ s0.get "topicName" ≠ s1.get "topicName"
        ∧ ∀ k, k ≠ "topicName" → s0.get k = s1.get k) := by
  constructor
  · simp [_get_topics, str_to_list, topicSubscription, Json.get, dictGet]
  · refine ⟨_, _, rfl, ?_, ?_, ?_, ?_, ?_, ?_⟩
    · simp [topicSubscription, Json.get, dictGet]
    · simp [topicSubscription, Json.get, dictGet]
    · simp +decide [topicSubscription, Json.get, dictGet, Json.isTruthy]
    · simp +decide [topicSubscription, Json.get, dictGet, Json.isTruthy]
    · simp +decide [topicSubscription, Json.get, dictGet]
    · intro k hk
      simp [topicSubscription, Json.get, dictGet, Ne.symm hk]

/-- Witness for C4 at the concrete call of the claim. -/
theorem fetch_builds_one_subscription_per_topic_witness :
    ((_get_topics {} (.many ["a", "b"]) (.obj [("x", .obj [])]) .null).map
        (fun s => s.get "topicName") =
      ["a", "b"].map (fun t => some (.str t)))
    ∧ (∃ s0 s1,
        _get_topics {} (.many ["a", "b"]) (.obj [("x", .obj [])]) .null =
          [s0, s1]
        ∧ s0.get "lockDuration" = s1.get "lockDuration") := by
  obtain ⟨h1, s0, s1, hlist, _, _, _, _, _, hk⟩ :=
    fetch_builds_one_subscription_per_topic {} ["a", "b"]
      (.obj [("x", .obj [])]) .null
  exact ⟨h1, s0, s1, hlist, hk "lockDuration" (by decide)⟩

/-- C5: with both credential strategies configured (as truthy dicts), the
assembled Authorization header equals the bearer strategy's value (bearer
is written after basic, so last write wins); with neither configured, the
assembled headers carry no Authorization key. -/
theorem bearer_wins_header_assembly
    (cfg : Config) (basicTok bearerTok : TokenFun) :
    (∀ b r, cfg.auth_basic = some b → b.isTruthy = true → b.isDict = true →
      cfg.auth_bearer = some r → r.isTruthy = true → r.isDict = true →
      dictGetS (_get_headers cfg basicTok bearerTok) "Authorization" =
        some (bearerTok r))
    ∧ (cfg.auth_basic = none → cfg.auth_bearer = none →
      dictGetS (_get_headers cfg basicTok bearerTok) "Authorization" =
        none) := by
  constructor
  · intro b r hb hbt hbd hr hrt hrd
    simp +decide [_get_headers, auth_basic, auth_bearer, hb, hbt, hbd, hr,
      hrt, hrd, dictUpdateS, dictSetS, dictGetS]
  · intro hb hr
    simp +decide [_get_headers, auth_basic, auth_bearer, hb, hr, dictGetS]

/-- Witness for C5 at a concrete configuration with both strategies, and
at the default configuration with neither. -/
theorem bearer_wins_header_assembly_witness :
    dictGetS
      (_get_headers
        { auth_basic := some (.obj [("username", .str "u"),
            ("password", .str "p")]),
          auth_bearer := some (.obj [("access_token", .str "tok")]) }
        (fun _ => "Basic dTpw") (fun _ => "Bearer tok"))
      "Authorization" = some "Bearer tok"
    ∧ dictGetS (_get_headers {} (fun _ => "Basic dTpw")
        (fun _ => "Bearer tok")) "Authorization" = none :=
  ⟨(bearer_wins_header_assembly
      { auth_basic := some (.obj [("username", .str "u"),
          ("password", .str "p")]),
        auth_bearer := some (.obj [("access_token", .str "tok")]) }
      (fun _ => "Basic dTpw") (fun _ => "Bearer tok")).1
    (.obj [("username", .str "u"), ("password", .str "p")])
    (.obj [("access_token", .str "tok")]) rfl rfl rfl rfl rfl rfl,
   (bearer_wins_header_assembly {} (fun _ => "Basic dTpw")
      (fun _ => "Bearer tok")).2 rfl rfl⟩

/-- C9: with a falsy `process_variables` every built subscription carries
`processVariables = {}`, while the `variables` argument is passed through
unchanged into every subscription — the key is present even when the value
is `None` (sent as null, not omitted). -/
theorem falsy_process_variables_empty_and_variables_passed
    (cfg : Config) (tn : TopicNames) (pv vars : Json)
    (hpv : pv.isTruthy = false) :
    ∀ sub ∈ _get_topics cfg tn pv vars,
      sub.get "processVariables" = some (.obj [])
      ∧ sub.get "variables" = some vars
      ∧ "variables" ∈ sub.keys := by
  intro sub hsub
  simp only [_get_topics, List.mem_map] at hsub
  obtain ⟨t, _, rfl⟩ := hsub
  refine ⟨?_, ?_, ?_⟩ <;>
    simp +decide [topicSubscription, hpv, Json.get, dictGet, Json.keys]

/-- Witness for C9 at `process_variables = None`, `variables = None`. -/
theorem falsy_process_variables_witness :
    Json.isTruthy .null = false
    ∧ ((topicSubscription {} "t" .null .null).get "processVariables" =
          some (.obj [])
        ∧ (topicSubscription {} "t" .null .null).get "variables" =
          some .null
        ∧ "variables" ∈ (topicSubscription {} "t" .null .null).keys) := by
  refine ⟨rfl, falsy_process_variables_empty_and_variables_passed {}
    (.single "t") .null .null rfl (topicSubscription {} "t" .null .null) ?_⟩
  simp [_get_topics, str_to_list]

/-- C10: a credential config entry that is present but not a dict makes
the corresponding accessor return the empty mapping without raising, so it
contributes no Authorization header; with both entries non-dict the
assembled headers are exactly the Content-Type header. -/
theorem non_dict_auth_config_silently_ignored
    (cfg : Config) (basicTok bearerTok : TokenFun) :
    (∀ b, cfg.auth_basic = some b → b.isDict = false →
      auth_basic cfg basicTok = [])
    ∧ (∀ r, cfg.auth_bearer = some r → r.isDict = false →
      auth_bearer cfg bearerTok = [])
    ∧ (∀ b r, cfg.auth_basic = some b → b.isDict = false →
      cfg.auth_bearer = some r → r.isDict = false →
      _get_headers cfg basicTok bearerTok =
        [("Content-Type", "application/json")]
      ∧ dictGetS (_get_headers cfg basicTok bearerTok) "Authorization" =
        none) := by
  refine ⟨?_, ?_, ?_⟩
  · intro b hb hbd
    simp [auth_basic, hb, hbd]
  · intro r hr hrd
    simp [auth_bearer, hr, hrd]
  · intro b r hb hbd hr hrd
    constructor
    · simp [_get_headers, auth_basic, auth_bearer, hb, hbd, hr, hrd]
    · simp +decide [_get_headers, auth_basic, auth_bearer, hb, hbd, hr,
        hrd, dictGetS]

/-- Witness for C10 at a string-valued `auth_basic` entry and a
number-valued `auth_bearer` entry. -/
theorem non_dict_auth_config_silently_ignored_witness :
    auth_basic
      { auth_basic := some (.str "u:p"),
        auth_bearer := some (.num 3) }
      (fun _ => "B") = []
    ∧ _get_headers
      { auth_basic := some (.str "u:p"),
        auth_bearer := some (.num 3) }
      (fun _ => "B") (fun _ => "T") =
      [("Content-Type", "application/json")] :=
  ⟨(non_dict_auth_config_silently_ignored
      { auth_basic := some (.str "u:p"), auth_bearer := some (.num 3) }
      (fun _ => "B") (fun _ => "T")).1 (.str "u:p") rfl rfl,
   ((non_dict_auth_config_silently_ignored
      { auth_basic := some (.str "u:p"), auth_bearer := some (.num 3) }
      (fun _ => "B") (fun _ => "T")).2.2 (.str "u:p") (.num 3)
      rfl rfl rfl rfl).1⟩

end Camunda
